import Mathlib

/-!
Verification of the Synapse-Phoenix natural-language-to-SQL pipeline.

The Python sources (`my_app/utils.py`, `my_app/views.py`, `main.py`) are
shallowly embedded here:

* Python strings are Lean `String`s (sequences of scalar values).  Case
  mapping (`str.lower` / `str.upper`) is modelled with the ASCII case maps
  `Char.toLower` / `Char.toUpper`, and `str.strip` with removal of ASCII
  whitespace, which agree with Python on the ASCII inputs the pipeline
  handles.
* Functions that can raise return `Option` (`none` models a raised
  exception).
* The request handlers (`main.main` and `views.index`) are modelled as
  functions from the request input plus an environment (API key presence,
  the completion returned by the hosted model, the database response) to an
  outcome together with the ordered list of external calls performed.
-/

namespace SynapsePhoenix

/-- Characters removed by Python `str.strip()` (ASCII whitespace). -/
def isPySpace (c : Char) : Bool :=
  c == ' ' || c == '\t' || c == '\n' || c == '\r' || c == '\x0b' || c == '\x0c'

/-- Remove trailing ASCII whitespace. -/
def dropTrail (l : List Char) : List Char :=
  (l.reverse.dropWhile isPySpace).reverse

/-- Remove leading and trailing ASCII whitespace, as Python `str.strip()`. -/
def stripChars (l : List Char) : List Char :=
  dropTrail (l.dropWhile isPySpace)

/-- Python `s.strip()`. -/
def pyStrip (s : String) : String := ⟨stripChars s.data⟩

/-- Lowercase mapping of one character under Python `str.lower()`.  Besides
the ASCII case map it includes U+0130 (LATIN CAPITAL LETTER I WITH DOT
ABOVE) → "i" followed by U+0307 (COMBINING DOT ABOVE): the single
unconditional multi-character lowercase mapping of Unicode SpecialCasing,
and hence the one way `str.lower()` changes a string's length.  Other
non-ASCII one-to-one lowerings are not modelled; no claim depends on
them. -/
def charLower (c : Char) : List Char :=
  if c = Char.ofNat 304 then ['i', Char.ofNat 775] else [c.toLower]

/-- Python `s.lower()`. -/
def pyLower (s : String) : String := ⟨s.data.flatMap charLower⟩

/-- Python `s.upper()` (ASCII case map). -/
def pyUpper (s : String) : String := ⟨s.data.map Char.toUpper⟩

/-- Does the first list start with the second one? -/
def listStartsWith : List Char → List Char → Bool
  | _, [] => true
  | [], _ :: _ => false
  | c :: cs, p :: ps => c == p && listStartsWith cs ps

/-- Python substring containment (`pat in hay`). -/
def listContains : List Char → List Char → Bool
  | [], pat => pat.isEmpty
  | c :: rest, pat => listStartsWith (c :: rest) pat || listContains rest pat

/-- Python `pat in hay` on strings. -/
def strContains (hay pat : String) : Bool := listContains hay.data pat.data

/-- Python `s.startswith(pre)`. -/
def pyStartsWith (s pre : String) : Bool := listStartsWith s.data pre.data

/-! ## Relevance Filter (`my_app/utils.py`, `validate_sql_query`) -/

/-- SQL/domain keyword list of `validate_sql_query`. -/
def sql_keywords : List String :=
  ["sql", "query", "select", "where", "from", "join", "group by", "order by",
   "top", "retrieve", "get", "find", "show", "list", "count", "sum", "avg",
   "max", "min", "merchant", "revenue", "transaction", "sales", "table",
   "column", "filter", "sort", "aggregate", "trx", "amount", "date", "card",
   "issuer", "acquirer", "mcc", "wallet", "currency", "city", "timestamp"]

/-- Schema-column substrings of `validate_sql_query`. -/
def schema_columns : List String :=
  ["transaction_id", "transaction_timestamp", "card_id", "expiry_date",
   "issuer_bank_name", "merchant_id", "merchant_mcc", "mcc_category",
   "merchant_city", "transaction_type", "transaction_amount_kzt",
   "original_amount", "transaction_currency", "acquirer_country_iso",
   "pos_entry_mode", "wallet_type", "index_level_0", "transaction",
   "merchant", "card", "amount", "currency", "mcc", "wallet"]

/-- Off-topic phrase list of `validate_sql_query`. -/
def off_topic_patterns : List String :=
  ["hello", "hi", "how are you", "what can you do", "tell me about",
   "explain yourself", "who are you", "what is", "define", "help me with",
   "write a poem", "joke", "story", "code in", "python", "javascript"]

/-- Local variable `user_lower = user_input.lower().strip()` of
`validate_sql_query`. -/
def user_lower (user_input : String) : String := pyStrip (pyLower user_input)

/-- Relevance filter `validate_sql_query` from `my_app/utils.py`. -/
def validate_sql_query (user_input : String) : Bool :=
  if (user_lower user_input).length < 5 then false
  else if (off_topic_patterns.any fun p => strContains (user_lower user_input) p)
          && !(sql_keywords.any fun k => strContains (user_lower user_input) k) then
    false
  else
    (sql_keywords.any fun k => strContains (user_lower user_input) k)
      || (schema_columns.any fun col => strContains (user_lower user_input) col)

/-! ### Basic string lemmas -/

theorem length_dropWhile_le (p : Char → Bool) (l : List Char) :
    (l.dropWhile p).length ≤ l.length := by
  induction l with
  | nil => simp
  | cons a t ih =>
    rw [List.dropWhile_cons]
    split
    · exact le_trans ih (by simp)
    · simp

theorem length_dropTrail_le (l : List Char) : (dropTrail l).length ≤ l.length := by
  have h := length_dropWhile_le isPySpace l.reverse
  simpa [dropTrail] using h

theorem length_stripChars_le (l : List Char) : (stripChars l).length ≤ l.length :=
  le_trans (length_dropTrail_le _) (length_dropWhile_le _ _)

theorem pyStrip_length_le (s : String) : (pyStrip s).length ≤ s.length :=
  length_stripChars_le s.data

/-! ### Claim C7 -/

/-- C7 counterexample: the input `"İget"` has 4 characters, yet
`validate_sql_query` accepts it.  Python `'İget'.lower()` maps U+0130 to
"i" plus a combining dot, so the lowered stripped form has 5 characters and
contains the SQL keyword `get`: the length check compares the lowered form,
not the input, and lowering can lengthen the string. -/
theorem C7_counterexample :
    ("İget" : String).length < 5 ∧ validate_sql_query "İget" = true :=
  ⟨by decide, by decide⟩

/-- C7 amended: the 5-character minimum applies to the lower-cased,
stripped input: for every input string whose lowered stripped form is
shorter than 5 characters, `validate_sql_query` returns `false`.  (An input
shorter than 5 characters can itself be accepted when lowering lengthens
it, as for `"İget"`.) -/
theorem C7_short_lowered_input_rejected (s : String)
    (h : (user_lower s).length < 5) : validate_sql_query s = false := by
  unfold validate_sql_query
  rw [if_pos h]

/-- Witness for the amended C7 at the concrete input `"hi"`. -/
theorem C7_witness : (user_lower "hi").length < 5 ∧ validate_sql_query "hi" = false :=
  ⟨by decide, C7_short_lowered_input_rejected "hi" (by decide)⟩

/-! ### Claim C1 -/

/-- C1 counterexample: `"hi pos_entry_mode"` contains the schema column
`pos_entry_mode`, yet `validate_sql_query` rejects it, because the input
matches the off-topic phrase `"hi"` and `pos_entry_mode` contains no member
of the SQL keyword list.  This refutes the claim that a schema-column
occurrence makes the filter accept regardless of off-topic phrasing. -/
theorem C1_counterexample :
    "pos_entry_mode" ∈ schema_columns
      ∧ strContains (user_lower "hi pos_entry_mode") "pos_entry_mode" = true
      ∧ validate_sql_query "hi pos_entry_mode" = false := by
  refine ⟨by decide, by decide, by decide⟩

/-- C1 amended: an input whose lower-cased stripped form has at least 5
characters and contains a schema column name is accepted by
`validate_sql_query`, provided it does not additionally match an off-topic
phrase while containing no SQL keyword. -/
theorem C1_amended_schema_reference_accepts (s col : String)
    (hcol : col ∈ schema_columns)
    (hsub : strContains (user_lower s) col = true)
    (hlen : 5 ≤ (user_lower s).length)
    (hok : (off_topic_patterns.any fun p => strContains (user_lower s) p) = false
        ∨ (sql_keywords.any fun k => strContains (user_lower s) k) = true) :
    validate_sql_query s = true := by
  unfold validate_sql_query
  rw [if_neg (by omega)]
  have hschema : (schema_columns.any fun col => strContains (user_lower s) col) = true :=
    List.any_eq_true.mpr ⟨col, hcol, hsub⟩
  rcases hok with hofft | hkw
  · rw [if_neg (by simp [hofft])]
    simp [hschema]
  · rw [if_neg (by simp [hkw])]
    simp [hkw]

/-- Witness for the amended C1 at the concrete input `"pos_entry_mode"`. -/
theorem C1_witness : validate_sql_query "pos_entry_mode" = true :=
  C1_amended_schema_reference_accepts "pos_entry_mode" "pos_entry_mode"
    (by decide) (by decide) (by decide) (Or.inl (by decide))

/-! ## Response Extractor (`views.py` and `main.py`, `extract_sql_query`)

The extractor strips markdown code fences, then attempts `json.loads` on the
remaining text.  `json.loads` is modelled by a recursive-descent parser
(`json_loads`) for the RFC 8259 grammar extended, as in CPython's decoder,
with the non-standard `NaN`/`Infinity`/`-Infinity` constants (tried after
the number grammar fails, as in CPython's scanner).  One conscious
deviation, unreachable from the claims below: a lone-surrogate `\uXXXX`
escape maps through `Char.ofNat` (Lean strings cannot hold lone
surrogates). -/

def quoteChar : Char := Char.ofNat 34

def backslashChar : Char := Char.ofNat 92

def lbraceChar : Char := Char.ofNat 123

def rbraceChar : Char := Char.ofNat 125

def lbrackChar : Char := Char.ofNat 91

def rbrackChar : Char := Char.ofNat 93

/-- JSON values as produced by Python `json.loads`.  Numbers keep their raw
lexeme; objects keep their members in source order (lookup resolves
duplicates the way `dict` does, last binding wins). -/
inductive Json where
  | null
  | bool (b : Bool)
  | num (raw : String)
  | str (s : String)
  | arr (elems : List Json)
  | obj (members : List (String × Json))

/-- Whitespace skipped between JSON tokens. -/
def jsonWs (s : List Char) : List Char :=
  s.dropWhile fun c => c == ' ' || c == '\t' || c == '\n' || c == '\r'

def hexDigit (c : Char) : Option Nat :=
  if 48 ≤ c.toNat ∧ c.toNat ≤ 57 then some (c.toNat - 48)
  else if 97 ≤ c.toNat ∧ c.toNat ≤ 102 then some (c.toNat - 87)
  else if 65 ≤ c.toNat ∧ c.toNat ≤ 70 then some (c.toNat - 55)
  else none

def parseHex4 : List Char → Option (Nat × List Char)
  | c1 :: c2 :: c3 :: c4 :: rest =>
    match hexDigit c1, hexDigit c2, hexDigit c3, hexDigit c4 with
    | some a, some b, some c, some d => some ((((a * 16 + b) * 16 + c) * 16 + d), rest)
    | _, _, _, _ => none
  | _ => none

/-- Single-character JSON escapes. -/
def escChar (c : Char) : Option Char :=
  if c == quoteChar then some quoteChar
  else if c == backslashChar then some backslashChar
  else if c == '/' then some '/'
  else if c == 'b' then some (Char.ofNat 8)
  else if c == 'f' then some (Char.ofNat 12)
  else if c == 'n' then some '\n'
  else if c == 'r' then some '\r'
  else if c == 't' then some '\t'
  else none

/-- Body of a JSON string after the opening quote; returns the decoded
characters and the input remaining after the closing quote.  Strict mode:
raw control characters and unknown escapes fail. -/
def parseStringBody : Nat → List Char → Option (List Char × List Char)
  | 0, _ => none
  | _ + 1, [] => none
  | fuel + 1, c :: rest =>
    if c == quoteChar then some ([], rest)
    else if c == backslashChar then
      match rest with
      | [] => none
      | e :: rest2 =>
        if e == 'u' then
          match parseHex4 rest2 with
          | none => none
          | some (n, rest3) =>
            if 55296 ≤ n ∧ n ≤ 56319 then
              match rest3 with
              | c1 :: c2 :: rest4 =>
                if c1 == backslashChar && c2 == 'u' then
                  match parseHex4 rest4 with
                  | some (m, rest5) =>
                    if 56320 ≤ m ∧ m ≤ 57343 then
                      (parseStringBody fuel rest5).map fun r =>
                        (Char.ofNat (65536 + (n - 55296) * 1024 + (m - 56320)) :: r.1, r.2)
                    else (parseStringBody fuel rest3).map fun r => (Char.ofNat n :: r.1, r.2)
                  | none => (parseStringBody fuel rest3).map fun r => (Char.ofNat n :: r.1, r.2)
                else (parseStringBody fuel rest3).map fun r => (Char.ofNat n :: r.1, r.2)
              | _ => (parseStringBody fuel rest3).map fun r => (Char.ofNat n :: r.1, r.2)
            else (parseStringBody fuel rest3).map fun r => (Char.ofNat n :: r.1, r.2)
        else
          match escChar e with
          | some ec => (parseStringBody fuel rest2).map fun r => (ec :: r.1, r.2)
          | none => none
    else if c.toNat < 32 then none
    else (parseStringBody fuel rest).map fun r => (c :: r.1, r.2)

def parseNumberExp (acc : List Char) (s : List Char) : Option (List Char × List Char) :=
  match s with
  | c :: r =>
    if c == 'e' || c == 'E' then
      match (match r with
             | d :: r2 => if d == '+' || d == '-' then ([d], r2) else (([] : List Char), r)
             | [] => ([], r)) with
      | (sgn, r2) =>
        match r2.takeWhile Char.isDigit with
        | [] => none
        | ds => some (acc ++ [c] ++ sgn ++ ds, r2.dropWhile Char.isDigit)
    else some (acc, s)
  | [] => some (acc, s)

def parseNumberFrac (acc : List Char) (s : List Char) : Option (List Char × List Char) :=
  match s with
  | c :: r =>
    if c == '.' then
      match r.takeWhile Char.isDigit with
      | [] => none
      | ds => parseNumberExp (acc ++ [c] ++ ds) (r.dropWhile Char.isDigit)
    else parseNumberExp acc s
  | [] => parseNumberExp acc s

/-- JSON number grammar: optional minus, integer part without leading
zeros, optional fraction, optional exponent.  Returns the lexeme. -/
def parseNumber (s : List Char) : Option (List Char × List Char) :=
  match (match s with
         | c :: r => if c == '-' then ([c], r) else (([] : List Char), s)
         | [] => ([], s)) with
  | (sign, s1) =>
    match s1 with
    | [] => none
    | c :: r =>
      if c == '0' then parseNumberFrac (sign ++ [c]) r
      else if c.isDigit then
        parseNumberFrac (sign ++ (c :: r).takeWhile Char.isDigit)
          ((c :: r).dropWhile Char.isDigit)
      else none

def dropLit : List Char → List Char → Option (List Char)
  | s, [] => some s
  | c :: s, l :: ls => if c == l then dropLit s ls else none
  | [], _ :: _ => none

mutual

/-- One JSON value starting at the head of the input (no leading
whitespace); returns the value and the remaining input. -/
def parseValue : Nat → List Char → Option (Json × List Char)
  | 0, _ => none
  | _ + 1, [] => none
  | fuel + 1, c :: rest =>
    if c == quoteChar then
      match parseStringBody (rest.length + 1) rest with
      | some (cs, r) => some (.str ⟨cs⟩, r)
      | none => none
    else if c == lbraceChar then
      match jsonWs rest with
      | d :: r => if d == rbraceChar then some (.obj [], r) else parseMembers fuel (jsonWs rest)
      | [] => none
    else if c == lbrackChar then
      match jsonWs rest with
      | d :: r => if d == rbrackChar then some (.arr [], r) else parseElements fuel (jsonWs rest)
      | [] => none
    else if c == 't' then
      (dropLit rest ['r', 'u', 'e']).map fun r => (.bool true, r)
    else if c == 'f' then
      (dropLit rest ['a', 'l', 's', 'e']).map fun r => (.bool false, r)
    else if c == 'n' then
      (dropLit rest ['u', 'l', 'l']).map fun r => (.null, r)
    else
      match parseNumber (c :: rest) with
      | some (lex, r) => some (.num ⟨lex⟩, r)
      | none =>
        if c == 'N' then (dropLit rest ['a', 'N']).map fun r => (.num "NaN", r)
        else if c == 'I' then
          (dropLit rest ['n', 'f', 'i', 'n', 'i', 't', 'y']).map fun r => (.num "Infinity", r)
        else if c == '-' then
          match rest with
          | d :: r2 =>
            if d == 'I' then
              (dropLit r2 ['n', 'f', 'i', 'n', 'i', 't', 'y']).map fun r =>
                (.num "-Infinity", r)
            else none
          | [] => none
        else none

/-- Non-empty member list of a JSON object, starting at the first key. -/
def parseMembers : Nat → List Char → Option (Json × List Char)
  | 0, _ => none
  | _ + 1, [] => none
  | fuel + 1, c :: rest =>
    if c == quoteChar then
      match parseStringBody (rest.length + 1) rest with
      | none => none
      | some (key, r1) =>
        match jsonWs r1 with
        | d :: r2 =>
          if d == ':' then
            match parseValue fuel (jsonWs r2) with
            | none => none
            | some (v, r3) =>
              match jsonWs r3 with
              | e :: r4 =>
                if e == ',' then
                  match parseMembers fuel (jsonWs r4) with
                  | some (.obj ms, r5) => some (.obj ((⟨key⟩, v) :: ms), r5)
                  | _ => none
                else if e == rbraceChar then some (.obj [(⟨key⟩, v)], r4)
                else none
              | [] => none
          else none
        | [] => none
    else none

/-- Non-empty element list of a JSON array, starting at the first value. -/
def parseElements : Nat → List Char → Option (Json × List Char)
  | 0, _ => none
  | fuel + 1, s =>
    match parseValue fuel s with
    | none => none
    | some (v, r1) =>
      match jsonWs r1 with
      | e :: r2 =>
        if e == ',' then
          match parseElements fuel (jsonWs r2) with
          | some (.arr vs, r3) => some (.arr (v :: vs), r3)
          | _ => none
        else if e == rbrackChar then some (.arr [v], r2)
        else none
      | [] => none

end

/-- Python `json.loads`: one JSON value surrounded by optional whitespace;
`none` models a raised `JSONDecodeError`. -/
def json_loads (s : String) : Option Json :=
  match parseValue (s.length + 1) (jsonWs s.data) with
  | some (j, rest) => if (jsonWs rest).isEmpty then some j else none
  | none => none

/-- Key lookup in a decoded JSON object, with Python `dict` semantics for
duplicate keys: the last binding wins. -/
def dictLookup : List (String × Json) → String → Option Json
  | [], _ => none
  | kv :: rest, k =>
    match dictLookup rest k with
    | some v => some v
    | none => if kv.1 = k then some kv.2 else none

/-- Split on a separator character, keeping empty chunks, as Python
`str.split` with an explicit separator. -/
def splitOnChar (sep : Char) : List Char → List (List Char)
  | [] => [[]]
  | c :: rest =>
    if c == sep then [] :: splitOnChar sep rest
    else
      match splitOnChar sep rest with
      | [] => [[c]]
      | chunk :: more => (c :: chunk) :: more

/-- Python `'\n'.join`, on character lists. -/
def joinChar (sep : Char) : List (List Char) → List Char
  | [] => []
  | [x] => x
  | x :: y :: xs => x ++ sep :: joinChar sep (y :: xs)

/-- The string of three backticks used as a fence marker. -/
def fence : String := "```"

/-- Drop the first line when it starts with the fence marker
(`if lines[0].startswith('```'): lines = lines[1:]`). -/
def fenceDropHead (lines : List (List Char)) : List (List Char) :=
  match lines with
  | [] => []
  | l0 :: rest => if listStartsWith l0 fence.data then rest else lines

/-- Drop the last line when its stripped form is the fence marker
(`if lines and lines[-1].strip() == '```': lines = lines[:-1]`). -/
def fenceDropLast (lines : List (List Char)) : List (List Char) :=
  match lines.getLast? with
  | some last => if stripChars last == fence.data then lines.dropLast else lines
  | none => lines

/-- The fence-removal block of `extract_sql_query`, entered when the
stripped text starts with three backticks. -/
def fenceStrip (text : String) : String :=
  ⟨joinChar '\n' (fenceDropLast (fenceDropHead (splitOnChar '\n' text.data)))⟩

/-- Text reaching the `json.loads` call of `extract_sql_query`: the input
stripped, fences removed when present, stripped again. -/
def extractPre (response_text : String) : String :=
  pyStrip
    (if pyStartsWith (pyStrip response_text) fence then fenceStrip (pyStrip response_text)
     else pyStrip response_text)

/-- Response extractor `extract_sql_query` from `views.py` / `main.py`.
`none` models the `AttributeError` raised by `text.strip()` when the JSON
object carries a non-string `query`/`sql` value. -/
def extract_sql_query (response_text : String) : Option String :=
  match json_loads (extractPre response_text) with
  | some (Json.obj ms) =>
    match dictLookup ms "query" with
    | some (Json.str v) => some (pyStrip v)
    | some _ => none
    | none =>
      match dictLookup ms "sql" with
      | some (Json.str v) => some (pyStrip v)
      | some _ => none
      | none => some (pyStrip (extractPre response_text))
  | some _ => some (pyStrip (extractPre response_text))
  | none => some (pyStrip (extractPre response_text))

/-! ### Lemmas about stripping and line splitting -/

theorem string_eq_of_data {a b : String} (h : a.data = b.data) : a = b :=
  congrArg String.mk h

theorem dropWhile_head_false {p : Char → Bool} {l : List Char} {c : Char} {r : List Char}
    (h : l.dropWhile p = c :: r) : p c = false := by
  induction l with
  | nil => simp at h
  | cons a t ih =>
    rw [List.dropWhile_cons] at h
    by_cases hp : p a
    · rw [if_pos hp] at h
      exact ih h
    · rw [if_neg hp] at h
      injection h with h1 _
      rw [← h1]
      simpa using hp

theorem dropWhile_append_singleton {p : Char → Bool} {c : Char} (hc : p c = false)
    (x : List Char) : ∃ y, (x ++ [c]).dropWhile p = y ++ [c] := by
  induction x with
  | nil => exact ⟨[], by simp [List.dropWhile_cons, hc]⟩
  | cons a t ih =>
    by_cases hp : p a
    · simpa [List.dropWhile_cons, hp] using ih
    · exact ⟨a :: t, by simp [List.dropWhile_cons, hp]⟩

theorem dropTrail_idempotent (l : List Char) : dropTrail (dropTrail l) = dropTrail l := by
  simp [dropTrail, List.dropWhile_idempotent]

theorem dropWhile_dropTrail {m : List Char} (hm : m.dropWhile isPySpace = m) :
    (dropTrail m).dropWhile isPySpace = dropTrail m := by
  cases m with
  | nil => simp [dropTrail]
  | cons c r =>
    have hc : isPySpace c = false := dropWhile_head_false hm
    obtain ⟨y, hy⟩ := dropWhile_append_singleton hc r.reverse
    have hdt : dropTrail (c :: r) = c :: y.reverse := by
      show ((c :: r).reverse.dropWhile isPySpace).reverse = c :: y.reverse
      rw [List.reverse_cons, hy]
      simp
    rw [hdt, List.dropWhile_cons_of_neg (by simp [hc])]

theorem stripChars_idem (l : List Char) : stripChars (stripChars l) = stripChars l := by
  unfold stripChars
  rw [dropWhile_dropTrail (List.dropWhile_idempotent _ _), dropTrail_idempotent]

theorem pyStrip_idem (s : String) : pyStrip (pyStrip s) = pyStrip s :=
  congrArg String.mk (stripChars_idem s.data)

theorem stripChars_sandwich {a b : Char} (ha : isPySpace a = false) (hb : isPySpace b = false)
    (l : List Char) : stripChars (a :: (l ++ [b])) = a :: (l ++ [b]) := by
  unfold stripChars dropTrail
  rw [List.dropWhile_cons_of_neg (by simp [ha])]
  have h1 : (a :: (l ++ [b])).reverse = b :: (l.reverse ++ [a]) := by
    simp
  rw [h1, List.dropWhile_cons_of_neg (by simp [hb]), ← h1, List.reverse_reverse]

theorem splitOnChar_ne_nil (sep : Char) (l : List Char) : splitOnChar sep l ≠ [] := by
  cases l with
  | nil => simp [splitOnChar]
  | cons c rest =>
    simp only [splitOnChar]
    split
    · simp
    · split <;> simp

theorem joinChar_splitOnChar (sep : Char) (l : List Char) :
    joinChar sep (splitOnChar sep l) = l := by
  induction l with
  | nil => rfl
  | cons c rest ih =>
    rcases hsp : splitOnChar sep rest with _ | ⟨x, xs⟩
    · exact absurd hsp (splitOnChar_ne_nil sep rest)
    · rw [hsp] at ih
      by_cases h : c == sep
      · have hc : c = sep := eq_of_beq h
        simp only [splitOnChar, if_pos h, hsp]
        rw [show joinChar sep ([] :: x :: xs) = [] ++ sep :: joinChar sep (x :: xs) from rfl]
        simp [ih, hc]
      · simp only [splitOnChar, if_neg h, hsp]
        cases xs with
        | nil =>
          simp only [joinChar] at ih ⊢
          simp [ih]
        | cons y ys =>
          rw [show joinChar sep ((c :: x) :: y :: ys) = (c :: x) ++ sep :: joinChar sep (y :: ys)
              from rfl]
          rw [show joinChar sep (x :: y :: ys) = x ++ sep :: joinChar sep (y :: ys) from rfl] at ih
          simp [← ih]

theorem splitOnChar_append (sep : Char) (x y : List Char) :
    splitOnChar sep (x ++ sep :: y) = splitOnChar sep x ++ splitOnChar sep y := by
  induction x with
  | nil => simp [splitOnChar]
  | cons c t ih =>
    by_cases h : c == sep
    · simp only [List.cons_append, splitOnChar, if_pos h]
      rw [show splitOnChar sep (t.append (sep :: y)) = splitOnChar sep t ++ splitOnChar sep y
          from ih]
    · simp only [List.cons_append, splitOnChar, if_neg h]
      rw [show splitOnChar sep (t.append (sep :: y)) = splitOnChar sep t ++ splitOnChar sep y
          from ih]
      rcases hsp : splitOnChar sep t with _ | ⟨ch, more⟩
      · exact absurd hsp (splitOnChar_ne_nil sep t)
      · rfl

/-! ### Claim C4 -/

/-- Wrapping a completion in triple-backtick fences with a language tag:
first line three backticks plus "sql", last line three backticks. -/
def fenceWrap (t : String) : String := "```sql\n" ++ t ++ "\n```"

theorem fenceWrap_data (t : String) :
    (fenceWrap t).data
      = Char.ofNat 96 :: (("``sql\n".data ++ (t.data ++ "\n``".data)) ++ [Char.ofNat 96]) := by
  show ("```sql\n" ++ t ++ "\n```").data = _
  rw [String.data_append, String.data_append]
  rw [show "```sql\n".data = Char.ofNat 96 :: "``sql\n".data from rfl]
  rw [show "\n```".data = "\n``".data ++ [Char.ofNat 96] from rfl]
  simp

theorem pyStrip_fenceWrap (t : String) : pyStrip (fenceWrap t) = fenceWrap t := by
  apply string_eq_of_data
  show stripChars (fenceWrap t).data = (fenceWrap t).data
  rw [fenceWrap_data]
  exact stripChars_sandwich (by decide) (by decide) _

theorem startsWith_fenceWrap (t : String) : pyStartsWith (fenceWrap t) fence = true := by
  show listStartsWith ("```sql\n" ++ t ++ "\n```").data fence.data = true
  rw [String.data_append, String.data_append]
  rfl

theorem fenceWrap_data_lines (t : String) :
    (fenceWrap t).data = "```sql".data ++ '\n' :: (t.data ++ '\n' :: fence.data) := by
  show ("```sql\n" ++ t ++ "\n```").data = _
  rw [String.data_append, String.data_append]
  rw [show "```sql\n".data = "```sql".data ++ ['\n'] from rfl]
  rw [show "\n```".data = '\n' :: fence.data from rfl]
  simp

theorem fenceStrip_fenceWrap (t : String) : fenceStrip (fenceWrap t) = t := by
  apply string_eq_of_data
  show joinChar '\n' (fenceDropLast (fenceDropHead (splitOnChar '\n' (fenceWrap t).data))) = t.data
  have hsplit : splitOnChar '\n' (fenceWrap t).data
      = "```sql".data :: (splitOnChar '\n' t.data ++ [fence.data]) := by
    rw [fenceWrap_data_lines, splitOnChar_append, splitOnChar_append]
    rw [show splitOnChar '\n' "```sql".data = ["```sql".data] from rfl]
    rw [show splitOnChar '\n' fence.data = [fence.data] from rfl]
    simp
  rw [hsplit]
  have hhead : fenceDropHead ("```sql".data :: (splitOnChar '\n' t.data ++ [fence.data]))
      = splitOnChar '\n' t.data ++ [fence.data] := rfl
  rw [hhead]
  have hlast : fenceDropLast (splitOnChar '\n' t.data ++ [fence.data])
      = splitOnChar '\n' t.data := by
    unfold fenceDropLast
    rw [List.getLast?_concat]
    show (if (stripChars fence.data == fence.data) = true
          then (splitOnChar '\n' t.data ++ [fence.data]).dropLast
          else splitOnChar '\n' t.data ++ [fence.data]) = splitOnChar '\n' t.data
    rw [if_pos (by rfl)]
    exact List.dropLast_concat ..
  rw [hlast, joinChar_splitOnChar]

theorem extractPre_fenceWrap (t : String) (h : pyStartsWith (pyStrip t) fence = false) :
    extractPre (fenceWrap t) = extractPre t := by
  unfold extractPre
  rw [pyStrip_fenceWrap, startsWith_fenceWrap, h]
  simp [fenceStrip_fenceWrap, pyStrip_idem]

/-- C4 counterexample: for the completion that is itself a fenced block,
wrapping in an extra fence and extracting does not equal extracting the
completion directly (the extractor removes only one layer of fences, so the
wrapped form keeps the inner fence while the unwrapped form loses it). -/
theorem C4_counterexample :
    extract_sql_query (fenceWrap "```\nX\n```") ≠ extract_sql_query "```\nX\n```" := by
  decide

/-- C4 amended: for every completion whose stripped form does not itself
start with a triple-backtick fence, wrapping it in fences with a language
tag and extracting yields the same result as extracting the unwrapped
completion. -/
theorem C4_amended_fence_roundtrip (t : String)
    (h : pyStartsWith (pyStrip t) fence = false) :
    extract_sql_query (fenceWrap t) = extract_sql_query t := by
  unfold extract_sql_query
  rw [extractPre_fenceWrap t h]

/-- Witness for the amended C4 at the concrete completion `"SELECT 1"`. -/
theorem C4_witness :
    pyStartsWith (pyStrip "SELECT 1") fence = false
      ∧ extract_sql_query (fenceWrap "SELECT 1") = extract_sql_query "SELECT 1" :=
  ⟨by decide, C4_amended_fence_roundtrip "SELECT 1" (by decide)⟩

/-! ### Claim C5 -/

/-- C5 counterexample: the extractor does not return the value of the
`query` key itself.  It returns the value stripped of surrounding
whitespace, and it raises (`none` in this model) when the value is not a
string, as for the JSON text with `query` bound to the number 5. -/
theorem C5_counterexample :
    extract_sql_query "\x7b\"query\": \" SELECT 1 \"\x7d" = some "SELECT 1"
      ∧ (" SELECT 1 " : String) ≠ "SELECT 1"
      ∧ extract_sql_query "\x7b\"query\": 5\x7d" = none :=
  ⟨by rfl, by decide, by rfl⟩

/-- C5 amended: when the fence-stripped completion parses as a JSON object
whose `query` key holds a string value, the extractor returns that value
stripped of surrounding whitespace; when there is no `query` key and the
`sql` key holds a string value, it returns that value stripped likewise. -/
theorem C5_amended_json_extraction (t : String) (ms : List (String × Json)) (v : String) :
    (json_loads (extractPre t) = some (Json.obj ms) →
      dictLookup ms "query" = some (Json.str v) →
      extract_sql_query t = some (pyStrip v))
    ∧ (json_loads (extractPre t) = some (Json.obj ms) →
      dictLookup ms "query" = none →
      dictLookup ms "sql" = some (Json.str v) →
      extract_sql_query t = some (pyStrip v)) := by
  constructor
  · intro h1 h2
    simp only [extract_sql_query, h1, h2]
  · intro h1 h2 h3
    simp only [extract_sql_query, h1, h2, h3]

/-- Witness for the amended C5 at two concrete JSON completions. -/
theorem C5_witness :
    extract_sql_query "\x7b\"query\": \"SELECT 1\"\x7d" = some "SELECT 1"
      ∧ extract_sql_query "\x7b\"sql\": \"SELECT 2\"\x7d" = some "SELECT 2" := by
  constructor
  · exact (C5_amended_json_extraction "\x7b\"query\": \"SELECT 1\"\x7d"
      [("query", Json.str "SELECT 1")] "SELECT 1").1 rfl rfl
  · exact (C5_amended_json_extraction "\x7b\"sql\": \"SELECT 2\"\x7d"
      [("sql", Json.str "SELECT 2")] "SELECT 2").2 rfl rfl rfl

/-! ### Claim C6 -/

/-- C6 counterexample: `extract_sql_query` is not total over all input
strings.  On the valid-JSON completion with `query` bound to `null`, the
code reaches `text.strip()` with `text = None` and raises
`AttributeError` (`none` here); likewise with `query` bound to `NaN`,
which CPython's `json.loads` parses to a float.  Only inputs that fail the
JSON parse are guaranteed to pass through unchanged. -/
theorem C6_counterexample :
    extract_sql_query "\x7b\"query\": null\x7d" = none
      ∧ extract_sql_query "\x7b\"query\": NaN\x7d" = none :=
  ⟨by rfl, by rfl⟩

/-- C6 amended: when the fence-stripped, whitespace-stripped completion
fails to parse as JSON, the extractor never raises: it returns exactly that
fence-stripped, whitespace-stripped text.  (Totality does not extend to all
input strings: a completion that parses as a JSON object whose `query`/`sql`
value is not a string makes the function raise.) -/
theorem C6_no_raise_on_non_json (t : String)
    (h : json_loads (extractPre t) = none) :
    extract_sql_query t = some (extractPre t) := by
  unfold extract_sql_query
  rw [h]
  have hs : pyStrip (extractPre t) = extractPre t := by
    unfold extractPre
    exact pyStrip_idem _
  rw [hs]

/-- Witness for C6 at a concrete non-JSON completion. -/
theorem C6_witness :
    json_loads (extractPre "SELECT * FROM transaction") = none
      ∧ extract_sql_query "SELECT * FROM transaction"
          = some (extractPre "SELECT * FROM transaction") :=
  ⟨rfl, C6_no_raise_on_non_json _ rfl⟩

/-! ## Safety Gate (`views.py` and `main.py`, `validate_sql_safety`) -/

/-- Word characters for the regex `\b` boundary (ASCII `[A-Za-z0-9_]`;
Python's `\w` additionally covers non-ASCII letters, which no denylist
keyword and no counterexample below involves). -/
def isWordChar (c : Char) : Bool := c.isAlphanum || c == '_'

/-- The keyword occurs at position `i` of `hay` as a whole word: the
characters match there and both neighbours, when present, are non-word
characters — the semantics of the regex `\b kw \b` for an alphabetic
keyword. -/
def wholeWordAt (hay kw : List Char) (i : Nat) : Bool :=
  listStartsWith (hay.drop i) kw
    && (i == 0 || !isWordChar (hay.getD (i - 1) ' '))
    && !isWordChar (hay.getD (i + kw.length) ' ')

/-- Python `re.search(r'\b' + kw + r'\b', hay) is not None`. -/
def hasWholeWord (hay kw : List Char) : Bool :=
  (List.range (hay.length + 1)).any (wholeWordAt hay kw)

def hasWholeWordS (hay kw : String) : Bool := hasWholeWord hay.data kw.data

/-- Local variable `sql_upper = sql_query.upper().strip()` of
`validate_sql_safety`. -/
def sql_upper (sql_query : String) : String := pyStrip (pyUpper sql_query)

/-- Denylist of `validate_sql_safety`, in source order. -/
def dangerous_keywords : List String :=
  ["DROP", "DELETE", "UPDATE", "INSERT", "ALTER", "CREATE",
   "TRUNCATE", "EXEC", "EXECUTE", "GRANT", "REVOKE", "COMMIT",
   "ROLLBACK", "LOCK", "UNLOCK"]

/-- Error message `f"Dangerous SQL operation detected: {keyword}"`. -/
def safetyMessage (kw : String) : String := "Dangerous SQL operation detected: " ++ kw

/-- Safety gate `validate_sql_safety`: the for-loop returns on the first
denylist keyword with a whole-word occurrence in the upper-cased stripped
query, else `(True, None)`. -/
def validate_sql_safety (sql_query : String) : Bool × Option String :=
  match dangerous_keywords.find? (fun kw => hasWholeWordS (sql_upper sql_query) kw) with
  | some kw => (false, some (safetyMessage kw))
  | none => (true, none)

theorem find?_append_cons {α : Type} (p : α → Bool) :
    ∀ (pre : List α) (x : α) (post : List α),
      (∀ a ∈ pre, p a = false) → p x = true →
      List.find? p (pre ++ x :: post) = some x
  | [], x, post, _, hx => by
    simp [List.find?_cons_of_pos _ hx]
  | a :: as, x, post, hpre, hx => by
    have ha : p a = false := hpre a (by simp)
    rw [List.cons_append, List.find?_cons_of_neg _ (by simp [ha])]
    exact find?_append_cons p as x post (fun b hb => hpre b (by simp [hb])) hx

/-! ### Claim C3 -/

/-- C3 counterexample: the query `"DELETE DROP"` contains the denylisted
keyword `DELETE` as a whole word, yet the returned message names `DROP`
(the first match in denylist order), not `DELETE`; so the gate does not
name every — or the — matched keyword, only the first one in list order. -/
theorem C3_counterexample :
    validate_sql_safety "DELETE DROP" = (false, some "Dangerous SQL operation detected: DROP")
      ∧ "DELETE" ∈ dangerous_keywords
      ∧ hasWholeWordS (sql_upper "DELETE DROP") "DELETE" = true
      ∧ strContains "Dangerous SQL operation detected: DROP" "DELETE" = false :=
  ⟨by decide, by decide, by decide, by decide⟩

/-- C3 amended: when some denylist keyword occurs as a whole word in the
upper-cased query, the gate returns `(False, message)` naming the first
such keyword in denylist order; when every denylist keyword occurs at most
as a substring of a longer word (no whole-word occurrence), the gate
returns `(True, None)`. -/
theorem C3_amended_safety_gate_verdict (q kw : String) (pre post : List String) :
    (dangerous_keywords = pre ++ kw :: post →
      hasWholeWordS (sql_upper q) kw = true →
      (∀ k ∈ pre, hasWholeWordS (sql_upper q) k = false) →
      validate_sql_safety q = (false, some (safetyMessage kw)))
    ∧ ((∀ k ∈ dangerous_keywords, hasWholeWordS (sql_upper q) k = false) →
      validate_sql_safety q = (true, none)) := by
  constructor
  · intro hlist hkw hpre
    unfold validate_sql_safety
    rw [hlist, find?_append_cons _ pre kw post hpre hkw]
  · intro hall
    unfold validate_sql_safety
    rw [List.find?_eq_none.mpr fun k hk => by simp [hall k hk]]

/-- Witness for the amended C3: `"DROP TABLE x"` is rejected with `DROP`
named, `"SELECT dropdown_id FROM x"` (where `DROP` occurs only inside an
identifier) is accepted. -/
theorem C3_witness :
    validate_sql_safety "DROP TABLE x" = (false, some (safetyMessage "DROP"))
      ∧ validate_sql_safety "SELECT dropdown_id FROM x" = (true, none) := by
  constructor
  · exact (C3_amended_safety_gate_verdict "DROP TABLE x" "DROP" []
      ["DELETE", "UPDATE", "INSERT", "ALTER", "CREATE", "TRUNCATE", "EXEC", "EXECUTE",
       "GRANT", "REVOKE", "COMMIT", "ROLLBACK", "LOCK", "UNLOCK"]).1
      (by decide) (by decide) (by decide)
  · exact (C3_amended_safety_gate_verdict "SELECT dropdown_id FROM x" "" [] []).2 (by decide)

/-! ## Request pipeline (`main.main` and `views.index`)

Both handlers are modelled as functions from the request input and an
environment (API-key presence, the completion the hosted model returns, the
database response) to an outcome paired with the ordered list of external
calls the request performs.  Only the POST path of `index` is modelled; a
GET renders the empty form and performs no calls. -/

/-- Python values appearing in database result rows. -/
inductive PyVal where
  | vNone
  | vStr (s : String)
  | vInt (n : Int)
deriving DecidableEq

/-- Python `str(value)` on a row value. -/
def pyStrOf : PyVal → String
  | .vNone => "None"
  | .vStr s => s
  | .vInt n => toString n

/-- External calls a request can perform. -/
inductive Event where
  | generationCall
  | dbCall (q : String)
  | analysisCall
deriving DecidableEq

/-- Result of the chat-completion request. -/
inductive GenOutcome where
  | ok (text : String)
  | authError
  | connError (msg : String)
  | apiError (msg : String)
  | otherError (msg : String)
deriving DecidableEq

/-- Environment of one request. -/
structure Env where
  apiKey : Option String
  gen : GenOutcome
  db : Except String (List String × List (List PyVal))
  analysisText : String

/-- Outcome of one request.  `error` carries the user-facing message;
`unexpectedError` models an uncaught exception reaching the generic
`except Exception` handler, whose message is interpreter-generated. -/
inductive Outcome where
  | error (msg : String)
  | unexpectedError
  | ok (sql : String) (cols : List String) (rows : List (List PyVal))
      (analysis : Option String)
deriving DecidableEq

/-- Rejection message shown by the web handler for irrelevant input. -/
def relevanceMsg : String :=
  "This service only accepts SQL query requests for the transaction table. Please provide a SQL-related question."

/-- Rejection message printed by the CLI for irrelevant input. -/
def cliRelevanceMsg : String :=
  "ERROR: This service only accepts SQL query requests for the transaction table. Please provide a SQL-related question."

/-- Web handler `index` of `my_app/views.py` (POST path), returning the
rendered outcome and the external calls made, in order. -/
def index_flow (postPrompt : String) (env : Env) : Outcome × List Event :=
  if pyStrip postPrompt = "" then (.error "Please enter a prompt.", [])
  else if validate_sql_query (pyStrip postPrompt) = false then (.error relevanceMsg, [])
  else
    match env.apiKey with
    | none => (.error "OpenAI API key not found in .env file.", [])
    | some _ =>
      match env.gen with
      | .authError =>
        (.error "Invalid API key. Please check your API key in .env file.", [.generationCall])
      | .connError m => (.error ("Network connection failed: " ++ m), [.generationCall])
      | .apiError m => (.error ("OpenAI API error: " ++ m), [.generationCall])
      | .otherError m => (.error ("Unexpected error: " ++ m), [.generationCall])
      | .ok response_text =>
        if pyStartsWith response_text "ERROR:" then (.error response_text, [.generationCall])
        else
          match extract_sql_query response_text with
          | none => (.unexpectedError, [.generationCall])
          | some sql_query =>
            if (validate_sql_safety sql_query).1 = false then
              (.error ("SQL Safety Error: " ++ (validate_sql_safety sql_query).2.getD ""),
               [.generationCall])
            else
              match env.db with
              | .error e =>
                (.error ("Database Error: " ++ ("Database error: " ++ e)),
                 [.generationCall, .dbCall sql_query])
              | .ok (cols, rows) =>
                if cols ≠ [] ∧ rows ≠ [] then
                  (.ok sql_query cols rows (some env.analysisText),
                   [.generationCall, .dbCall sql_query, .analysisCall])
                else (.ok sql_query cols rows none, [.generationCall, .dbCall sql_query])

/-- CLI entry point `main` of `main.py`, returning the process outcome and
the external calls made, in order (the CLI never triggers the analysis
step). -/
def main_flow (test_message : String) (env : Env) : Outcome × List Event :=
  match env.apiKey with
  | none => (.error "Error: OPENAI_API_KEY not found in .env file.", [])
  | some _ =>
    if validate_sql_query test_message = false then (.error cliRelevanceMsg, [])
    else
      match env.gen with
      | .authError =>
        (.error "Error: Invalid API key. Please check your API key in .env file.",
         [.generationCall])
      | .connError m => (.error ("Error: Network connection failed. " ++ m), [.generationCall])
      | .apiError m => (.error ("Error: OpenAI API error. " ++ m), [.generationCall])
      | .otherError m => (.error ("Error: Unexpected error occurred. " ++ m), [.generationCall])
      | .ok response_text =>
        if pyStartsWith response_text "ERROR:" then (.error response_text, [.generationCall])
        else
          match extract_sql_query response_text with
          | none => (.unexpectedError, [.generationCall])
          | some sql_query =>
            if (validate_sql_safety sql_query).1 = false then
              (.error ("Error: " ++ (validate_sql_safety sql_query).2.getD ""),
               [.generationCall])
            else
              match env.db with
              | .error e =>
                (.error ("Error executing SQL query: " ++ ("Database error: " ++ e)),
                 [.generationCall, .dbCall sql_query])
              | .ok (cols, rows) =>
                (.ok sql_query cols rows none, [.generationCall, .dbCall sql_query])

theorem index_flow_db_safe (p q : String) (env : Env)
    (h : Event.dbCall q ∈ (index_flow p env).2) : (validate_sql_safety q).1 = true := by
  unfold index_flow at h
  repeat' split at h
  all_goals simp_all

theorem main_flow_db_safe (m q : String) (env : Env)
    (h : Event.dbCall q ∈ (main_flow m env).2) : (validate_sql_safety q).1 = true := by
  unfold main_flow at h
  repeat' split at h
  all_goals simp_all

theorem index_flow_drop_no_db (p q : String) (env : Env)
    (hg : env.gen = GenOutcome.ok "DROP TABLE transaction") :
    Event.dbCall q ∉ (index_flow p env).2 := by
  intro h
  unfold index_flow at h
  rw [hg] at h
  have h2 : extract_sql_query "DROP TABLE transaction" = some "DROP TABLE transaction" := rfl
  have h3 : (validate_sql_safety "DROP TABLE transaction").1 = false := rfl
  repeat' split at h
  all_goals simp_all

theorem main_flow_drop_no_db (m q : String) (env : Env)
    (hg : env.gen = GenOutcome.ok "DROP TABLE transaction") :
    Event.dbCall q ∉ (main_flow m env).2 := by
  intro h
  unfold main_flow at h
  rw [hg] at h
  have h2 : extract_sql_query "DROP TABLE transaction" = some "DROP TABLE transaction" := rfl
  have h3 : (validate_sql_safety "DROP TABLE transaction").1 = false := rfl
  repeat' split at h
  all_goals simp_all

/-! ### Claim C2 -/

/-- C2: in both the web handler and the CLI, the executor runs only on a
query the safety gate passed; and when the generated text is
`DROP TABLE transaction`, the gate rejects it and the executor is never
invoked in either handler. -/
theorem C2_executor_only_after_safety (p m q : String) (env : Env) :
    (Event.dbCall q ∈ (index_flow p env).2 → (validate_sql_safety q).1 = true)
    ∧ (Event.dbCall q ∈ (main_flow m env).2 → (validate_sql_safety q).1 = true)
    ∧ (env.gen = GenOutcome.ok "DROP TABLE transaction" →
        (validate_sql_safety "DROP TABLE transaction").1 = false
        ∧ Event.dbCall q ∉ (index_flow p env).2
        ∧ Event.dbCall q ∉ (main_flow m env).2) :=
  ⟨index_flow_db_safe p q env, main_flow_db_safe m q env,
   fun hg => ⟨rfl, index_flow_drop_no_db p q env hg, main_flow_drop_no_db m q env hg⟩⟩

/-- Witness for C2 at a concrete environment whose completion is
`DROP TABLE transaction`. -/
theorem C2_witness :
    Event.dbCall "SELECT 1" ∉
      (index_flow "show transactions"
        ⟨some "key", GenOutcome.ok "DROP TABLE transaction", Except.ok ([], []), "a"⟩).2 :=
  ((C2_executor_only_after_safety "show transactions" "show transactions" "SELECT 1"
    ⟨some "key", GenOutcome.ok "DROP TABLE transaction", Except.ok ([], []), "a"⟩).2.2
    rfl).2.1

/-! ### Claim C8 -/

theorem index_flow_irrelevant (p : String) (env : Env)
    (h : validate_sql_query (pyStrip p) = false) :
    (index_flow p env).2 = []
      ∧ (pyStrip p ≠ "" → (index_flow p env).1 = .error relevanceMsg) := by
  unfold index_flow
  by_cases hp : pyStrip p = ""
  · rw [if_pos hp]
    exact ⟨rfl, fun hne => absurd hp hne⟩
  · rw [if_neg hp, if_pos h]
    exact ⟨rfl, fun _ => rfl⟩

theorem main_flow_irrelevant (m : String) (env : Env)
    (h : validate_sql_query m = false) :
    (main_flow m env).2 = []
      ∧ (env.apiKey.isSome = true → (main_flow m env).1 = .error cliRelevanceMsg) := by
  unfold main_flow
  constructor
  · split
    · rfl
    · rw [if_pos h]
  · split
    · intro hx
      simp_all
    · intro _
      rw [if_pos h]

/-- C8: when the relevance filter rejects the input, both handlers make no
external call at all (no generation call, no analysis call, no database
call), and terminate with the user-facing rejection message. -/
theorem C8_irrelevant_input_no_external_calls (p m : String) (env1 env2 : Env)
    (h1 : validate_sql_query (pyStrip p) = false)
    (h2 : validate_sql_query m = false) :
    (index_flow p env1).2 = []
      ∧ (main_flow m env2).2 = []
      ∧ (pyStrip p ≠ "" → (index_flow p env1).1 = Outcome.error relevanceMsg)
      ∧ (env2.apiKey.isSome = true → (main_flow m env2).1 = Outcome.error cliRelevanceMsg) :=
  ⟨(index_flow_irrelevant p env1 h1).1, (main_flow_irrelevant m env2 h2).1,
   (index_flow_irrelevant p env1 h1).2, (main_flow_irrelevant m env2 h2).2⟩

/-- Witness for C8 at the concrete input `"hi"`. -/
theorem C8_witness :
    (index_flow "hi" ⟨some "key", GenOutcome.ok "x", Except.ok ([], []), "a"⟩).2 = []
      ∧ (main_flow "hi" ⟨some "key", GenOutcome.ok "x", Except.ok ([], []), "a"⟩).2 = [] :=
  ⟨(C8_irrelevant_input_no_external_calls "hi" "hi"
      ⟨some "key", GenOutcome.ok "x", Except.ok ([], []), "a"⟩
      ⟨some "key", GenOutcome.ok "x", Except.ok ([], []), "a"⟩
      (by decide) (by decide)).1,
   (C8_irrelevant_input_no_external_calls "hi" "hi"
      ⟨some "key", GenOutcome.ok "x", Except.ok ([], []), "a"⟩
      ⟨some "key", GenOutcome.ok "x", Except.ok ([], []), "a"⟩
      (by decide) (by decide)).2.1⟩

/-! ## Terminal formatter (`main.py`, `format_results`) -/

/-- Python `sep.join(items)`. -/
def joinSep (sep : String) : List String → String
  | [] => ""
  | [x] => x
  | x :: y :: xs => x ++ sep ++ joinSep sep (y :: xs)

/-- Python `s.ljust(w)`: pad with spaces on the right up to width `w`,
unchanged when already at least that wide. -/
def pyLjust (s : String) (w : Nat) : String :=
  if w ≤ s.length then s else s ++ ⟨List.replicate (w - s.length) ' '⟩

/-- A string of `n` copies of one character. -/
def repeatChar (c : Char) (n : Nat) : String := ⟨List.replicate n c⟩

/-- Python `f"{n} row{'s' if n != 1 else ''}"`. -/
def rowCountText (n : Nat) : String := toString n ++ " row" ++ (if n ≠ 1 then "s" else "")

/-- The `max_col_width = 50` limit of `format_results`. -/
def max_col_width : Nat := 50

/-- Raw width of column `i` named `col`: the maximum of the column-name
length and the lengths of the stringified values at position `i` of each
row; rows shorter than `i + 1` are skipped by the `if i < len(row)` guard. -/
def rawColWidth (col : String) (i : Nat) (rows : List (List PyVal)) : Nat :=
  rows.foldl
    (fun m row =>
      if i < row.length then max m (pyStrOf (row.getD i PyVal.vNone)).length else m)
    col.length

/-- The dict `col_widths` before capping, as a lookup function built in
column order; a later duplicate column name overwrites an earlier one, as
in the Python dict. -/
def colWidthsRaw (columns : List String) (rows : List (List PyVal)) : String → Option Nat :=
  columns.enum.foldl
    (fun f ic k => if k = ic.2 then some (rawColWidth ic.2 ic.1 rows) else f k)
    (fun _ => none)

/-- The dict `col_widths` after the capping loop `min(width, 50)`. -/
def col_widths (columns : List String) (rows : List (List PyVal)) : String → Option Nat :=
  fun k => (colWidthsRaw columns rows k).map fun w => min w max_col_width

/-- One rendered cell of `format_results`: the value string truncated to
`max_col_width` when longer, then left-justified to the column width. -/
def renderCell (w : Nat) (v : PyVal) : String :=
  pyLjust
    (if max_col_width < (pyStrOf v).length then ⟨(pyStrOf v).data.take max_col_width⟩
     else pyStrOf v) w

/-- The generator of `formatted_row`: one cell per column, reading `row[i]`
unguarded (`none` models the `IndexError` raised on a row shorter than the
column list; every `columns` entry has a `col_widths` key, so the `getD`
default is never read). -/
def renderCells (widths : String → Option Nat) (row : List PyVal) :
    Nat → List String → Option (List String)
  | _, [] => some []
  | i, col :: cols =>
    match row.get? i with
    | none => none
    | some v =>
      match renderCells widths row (i + 1) cols with
      | none => none
      | some rest => some (renderCell ((widths col).getD 0) v :: rest)

/-- The `formatted_rows` list of `format_results`. -/
def renderRows (widths : String → Option Nat) (columns : List String) :
    List (List PyVal) → Option (List String)
  | [] => some []
  | row :: rest =>
    match renderCells widths row 0 columns with
    | none => none
    | some cells =>
      match renderRows widths columns rest with
      | none => none
      | some lines => some (joinSep " | " cells :: lines)

/-- The `header` line of `format_results`. -/
def headerText (columns : List String) (rows : List (List PyVal)) : String :=
  joinSep " | " (columns.map fun col => pyLjust col ((col_widths columns rows col).getD 0))

/-- Assembled terminal table of `format_results`. -/
def tableText (columns : List String) (rows : List (List PyVal))
    (formatted_rows : List String) : String :=
  "\nQuery Results (" ++ rowCountText rows.length ++ "):\n"
    ++ repeatChar '=' (headerText columns rows).length ++ "\n"
    ++ headerText columns rows ++ "\n"
    ++ repeatChar '-' (headerText columns rows).length ++ "\n"
    ++ joinSep "\n" formatted_rows
    ++ "\n" ++ repeatChar '=' (headerText columns rows).length ++ "\n"

/-- Terminal formatter `format_results` from `main.py`. -/
def format_results (columns : List String) (rows : List (List PyVal)) : Option String :=
  if columns = [] then some "No columns returned."
  else if rows = [] then some "Query executed successfully. No rows returned."
  else
    match renderRows (col_widths columns rows) columns rows with
    | none => none
    | some formatted_rows => some (tableText columns rows formatted_rows)

/-! ### Claim C9 -/

theorem col_widths_le (columns : List String) (rows : List (List PyVal)) (col : String)
    (w : Nat) (h : col_widths columns rows col = some w) : w ≤ max_col_width := by
  unfold col_widths at h
  cases hr : colWidthsRaw columns rows col with
  | none => rw [hr] at h; simp at h
  | some r =>
    rw [hr] at h
    simp at h
    omega

theorem renderCell_long (w : Nat) (v : PyVal) (hw : w ≤ max_col_width)
    (hv : max_col_width < (pyStrOf v).length) :
    renderCell w v = ⟨(pyStrOf v).data.take max_col_width⟩ := by
  unfold renderCell pyLjust
  rw [if_pos hv, if_pos]
  show w ≤ ((pyStrOf v).data.take max_col_width).length
  have hlen : (pyStrOf v).data.length = (pyStrOf v).length := rfl
  rw [List.length_take]
  omega

theorem renderCells_spec (widths : String → Option Nat) (row : List PyVal) :
    ∀ (cols : List String) (i : Nat), i + cols.length ≤ row.length →
      ∃ cells, renderCells widths row i cols = some cells
        ∧ cells.length = cols.length
        ∧ ∀ j col v, cols.get? j = some col → row.get? (i + j) = some v →
            cells.get? j = some (renderCell ((widths col).getD 0) v)
  | [], _, _ => ⟨[], rfl, rfl, fun j col v hcol _ => by simp at hcol⟩
  | c :: cs, i, hle => by
    have hrow : i < row.length := by
      simp only [List.length_cons] at hle
      omega
    obtain ⟨v, hv⟩ : ∃ v, row.get? i = some v := by
      cases hg : row.get? i with
      | none =>
        rw [List.get?_eq_none] at hg
        omega
      | some v => exact ⟨v, rfl⟩
    obtain ⟨cells, hcells, hlen, hspec⟩ :=
      renderCells_spec widths row cs (i + 1)
        (by simp only [List.length_cons] at hle; omega)
    refine ⟨renderCell ((widths c).getD 0) v :: cells, ?_, by simp [hlen], ?_⟩
    · have hv2 : row[i]? = some v := by simpa using hv
      simp [renderCells, hv2, hcells]
    · intro j col v' hcol hv'
      cases j with
      | zero =>
        simp only [List.get?] at hcol
        injection hcol with hcol
        rw [Nat.add_zero] at hv'
        rw [hv] at hv'
        injection hv' with hv'
        simp [← hcol, ← hv']
      | succ j' =>
        simp only [List.get?] at hcol
        have harith : i + (j' + 1) = (i + 1) + j' := by omega
        rw [harith] at hv'
        simpa using hspec j' col v' hcol hv'

theorem renderRows_isSome (widths : String → Option Nat) (columns : List String)
    (rows : List (List PyVal)) (hrect : ∀ row ∈ rows, columns.length ≤ row.length) :
    ∃ lines, renderRows widths columns rows = some lines := by
  induction rows with
  | nil => exact ⟨[], rfl⟩
  | cons r rs ih =>
    obtain ⟨cells, hc, _, _⟩ :=
      renderCells_spec widths r columns 0 (by simpa using hrect r (by simp))
    obtain ⟨lines, hl⟩ := ih fun row hrow => hrect row (by simp [hrow])
    exact ⟨joinSep " | " cells :: lines, by simp [renderRows, hc, hl]⟩

/-- C9: on a rectangular result set, every computed column width is capped
at 50 characters, every cell whose stringified value exceeds 50 characters
is rendered as exactly its first 50 characters (the left-justification pads
to at most the capped width, so it never widens a truncated cell), and the
terminal formatter produces a table without raising. -/
theorem C9_terminal_width_cap (columns : List String) (rows : List (List PyVal))
    (hrect : ∀ row ∈ rows, columns.length ≤ row.length) :
    (∀ col w, col_widths columns rows col = some w → w ≤ max_col_width)
    ∧ (∀ row ∈ rows, ∀ j col v, columns.get? j = some col → row.get? j = some v →
        max_col_width < (pyStrOf v).length →
        (renderCells (col_widths columns rows) row 0 columns).map (fun cells => cells.get? j)
          = some (some ⟨(pyStrOf v).data.take max_col_width⟩))
    ∧ (format_results columns rows).isSome = true := by
  refine ⟨fun col w h => col_widths_le columns rows col w h, ?_, ?_⟩
  · intro row hrow j col v hcol hv hlong
    obtain ⟨cells, hc, hlen, hspec⟩ :=
      renderCells_spec (col_widths columns rows) row columns 0
        (by simpa using hrect row hrow)
    rw [hc]
    have hcell := hspec j col v hcol (by simpa using hv)
    have hwle : (col_widths columns rows col).getD 0 ≤ max_col_width := by
      cases hcw : col_widths columns rows col with
      | none => simp [max_col_width]
      | some w => simpa using col_widths_le columns rows col w hcw
    rw [Option.map_some']
    rw [hcell, renderCell_long _ v hwle hlong]
  · unfold format_results
    by_cases hc : columns = []
    · rw [if_pos hc]
      rfl
    · rw [if_neg hc]
      by_cases hr : rows = []
      · rw [if_pos hr]
        rfl
      · rw [if_neg hr]
        obtain ⟨lines, hl⟩ := renderRows_isSome (col_widths columns rows) columns rows hrect
        rw [hl]
        rfl

/-- Witness for C9: one column, one row whose value is 51 characters. -/
theorem C9_witness :
    (format_results ["c"]
      [[PyVal.vStr "AAAAAAAAAAAAAAAAAAAAAAAAAAAAAAAAAAAAAAAAAAAAAAAAAAA"]]).isSome = true :=
  (C9_terminal_width_cap ["c"]
    [[PyVal.vStr "AAAAAAAAAAAAAAAAAAAAAAAAAAAAAAAAAAAAAAAAAAAAAAAAAAA"]] (by decide)).2.2

/-! ## Analysis formatter (`views.py`, `format_results_for_analysis`) -/

/-- The `max_rows_for_analysis = 100` limit. -/
def max_rows_for_analysis : Nat := 100

/-- Cell text of the analysis formatter:
`str(value) if value is not None else "NULL"`. -/
def analysisCellStr : PyVal → String
  | .vNone => "NULL"
  | v => pyStrOf v

/-- One data line of the analysis text. -/
def analysisRowLine (row : List PyVal) : String :=
  joinSep " | " (row.map analysisCellStr) ++ "\n"

/-- Count line, header line and dash ruler of the analysis text. -/
def analysisHeader (columns : List String) (rows : List (List PyVal)) : String :=
  "Query Results (" ++ rowCountText rows.length ++ "):\n\n"
    ++ joinSep " | " columns ++ "\n"
    ++ repeatChar '-' ((columns.map String.length).sum + 3 * (columns.length - 1)) ++ "\n"

/-- The truncation note
`f"\n... (showing first {max_rows_for_analysis} of {len(rows)} rows)\n"`. -/
def analysisNote (total : Nat) : String :=
  "\n... (showing first " ++ toString max_rows_for_analysis ++ " of "
    ++ toString total ++ " rows)\n"

/-- Analysis formatter `format_results_for_analysis` from `views.py`. -/
def format_results_for_analysis (columns : List String) (rows : List (List PyVal)) : String :=
  if columns = [] then "No columns returned."
  else if rows = [] then "Query executed successfully. No rows returned."
  else
    analysisHeader columns rows
      ++ String.join ((rows.take max_rows_for_analysis).map analysisRowLine)
      ++ (if max_rows_for_analysis < rows.length then analysisNote rows.length else "")

/-! ### Claim C10 -/

/-- C10: for every non-empty result set, the analysis text consists of a
header followed by the data lines of exactly the rows `rows[:100]` — a
prefix of the result set, hence the first rows in their original order, of
length `min len(rows) 100` (so exactly 100 when more than 100 rows exist) —
followed, exactly when more than 100 rows exist, by the note naming the 100
shown and the total row count. -/
theorem C10_analysis_row_cap (columns : List String) (rows : List (List PyVal))
    (hc : columns ≠ []) (hr : rows ≠ []) :
    (format_results_for_analysis columns rows
        = analysisHeader columns rows
          ++ String.join ((rows.take max_rows_for_analysis).map analysisRowLine)
          ++ (if max_rows_for_analysis < rows.length then analysisNote rows.length else ""))
      ∧ List.IsPrefix (rows.take max_rows_for_analysis) rows
      ∧ (rows.take max_rows_for_analysis).length = min rows.length max_rows_for_analysis := by
  refine ⟨?_, List.take_prefix _ _, ?_⟩
  · unfold format_results_for_analysis
    rw [if_neg hc, if_neg hr]
  · rw [List.length_take]
    omega

/-- Witness for C10 at a concrete 101-row result set. -/
theorem C10_witness :
    ((List.replicate 101 ([PyVal.vNone])).take max_rows_for_analysis).length
      = min (List.replicate 101 ([PyVal.vNone])).length max_rows_for_analysis :=
  (C10_analysis_row_cap ["c"] (List.replicate 101 [PyVal.vNone])
    (by simp) (by simp)).2.2

end SynapsePhoenix
